import Mathlib

/-!
Verification of the MCP request dispatch core (`mcp-server/app/mcp.py`).

The dispatch core is embedded shallowly: JSON values are an inductive type,
Python dicts are association lists, the wall clock observed by the `time`
handler is an explicit rational parameter (the double returned by
`datetime.timestamp()` is a rational number, and `int()` / `floor` on doubles
agree with the corresponding exact rational operations), and Python
exceptions raised while a handler runs are `Except.error` values.

`app/json_rpc.py` is imported by `mcp.py` but is not part of the sources
under verification; its request/response envelope types and constructors are
modelled from the specification and marked as such below.
-/

namespace McpServer

/-- A JSON value, as produced by the transport layer's JSON parser.
Numbers carry exact rationals: every IEEE double is a rational, and the
comparisons the dispatcher performs on numbers are exact. -/
inductive Json : Type where
  | null : Json
  | bool : Bool → Json
  | num : ℚ → Json
  | str : String → Json
  | arr : List Json → Json
  | obj : List (String × Json) → Json

/-- Python truthiness (`bool(x)`) of a JSON value: `None`, `False`, `0`,
`""`, `[]` and `{}` are falsy, everything else is truthy. -/
def Json.truthy : Json → Bool
  | .null => false
  | .bool b => b
  | .num q => decide (q ≠ 0)
  | .str s => decide (s ≠ "")
  | .arr xs => !xs.isEmpty
  | .obj kvs => !kvs.isEmpty

/-- Python truthiness of `dict.get(k)`: a missing key yields `None`, which is
falsy. -/
def optTruthy : Option Json → Bool
  | none => false
  | some j => j.truthy

/-- `dict` member access on a JSON object; `none` on any other value or a
missing key. -/
def Json.get? : Json → String → Option Json
  | .obj kvs, k => List.lookup k kvs
  | _, _ => none

/-- The Python type name of a JSON value, as it appears in an
`AttributeError` raised by attribute access on a non-dict. -/
def pyTypeName : Json → String
  | .null => "NoneType"
  | .bool _ => "bool"
  | .num q => if q.den = 1 then "int" else "float"
  | .str _ => "str"
  | .arr _ => "list"
  | .obj _ => "dict"

/-- Python `str()` rendering used when a JSON value is interpolated into an
f-string message; exact for the string case, which is the only case the
registry can be probed with in practice. -/
def pyStr : Json → String
  | .null => "None"
  | .bool b => if b then "True" else "False"
  | .num q => if q.den = 1 then toString q.num else toString q
  | .str s => s
  | .arr _ => "[...]"
  | .obj _ => "\x7b...\x7d"

/-- `str()` of an `Optional` value (`None` renders as `"None"`). -/
def pyStrOpt : Option Json → String
  | none => "None"
  | some j => pyStr j

/-- The `{"error": message}` result dictionaries `handle_tools_call` returns
on its validation failures (mcp.py lines 134, 140, 144). -/
def errObj (msg : String) : Json :=
  Json.obj [("error", Json.str msg)]

/-- A tool handler: an async function from an arguments value to a result
dictionary; a raised Python exception is an `Except.error` carrying
`str(e)`. -/
def ToolHandler : Type := Json → Except String Json

/-- The tool registry: a string-keyed dictionary of handlers. -/
def Registry : Type := List (String × ToolHandler)

/-- `TOOL_HANDLERS.get(tool_name)` where `tool_name` is the arbitrary JSON
value found under `"name"`: the registry's keys are strings, so any
non-string probe misses (mcp.py line 143). -/
def lookupTool (reg : Registry) : Option Json → Option ToolHandler
  | some (Json.str s) => List.lookup s reg
  | _ => none

/-- `tool_echo` (mcp.py lines 115-124): on a dict argument, echoes
`arguments.get("message", "")` in a text content block; on any non-dict
argument, `arguments.get` raises `AttributeError`. -/
def tool_echo : ToolHandler := fun arguments =>
  match arguments with
  | Json.obj kvs =>
      Except.ok (Json.obj [("content", Json.arr [Json.obj
        [("type", Json.str "text"),
         ("text", (List.lookup "message" kvs).getD (Json.str ""))]])])
  | other =>
      Except.error
        ("\x27" ++ pyTypeName other ++ "\x27 object has no attribute \x27get\x27")

/-- The registry as populated at module load (mcp.py line 127): only the
direct assignment `TOOL_HANDLERS["echo"] = tool_echo` runs; the
`register_tool` decorator is never applied. -/
def TOOL_HANDLERS : Registry := [("echo", tool_echo)]

/-- The static result literal of `handle_initialize` (mcp.py lines 56-76). -/
def initResult : Json :=
  Json.obj
    [("protocolVersion", Json.str "2024-11-05"),
     ("capabilities", Json.obj
       [("tools", Json.obj [("listChanged", Json.bool false)]),
        ("prompts", Json.obj [("listChanged", Json.bool false)]),
        ("resources", Json.obj
          [("subscribe", Json.bool false), ("listChanged", Json.bool false)]),
        ("logging", Json.obj [])]),
     ("serverInfo", Json.obj
       [("name", Json.str "embed-mcp"), ("version", Json.str "1.0.0")]),
     ("instructions", Json.str "MCP Server initialized successfully")]

/-- `handle_initialize` (mcp.py lines 51-76): ignores `params` and returns
the static capability descriptor. -/
def handle_init (_params : Option Json) : Except String Json :=
  Except.ok initResult

/-- The acknowledgement literal of `handle_notifications_initialized`
(mcp.py lines 84-87). -/
def ackResult : Json :=
  Json.obj
    [("status", Json.str "acknowledged"),
     ("message", Json.str "Server ready for requests")]

/-- `handle_notifications_initialized` (mcp.py lines 78-87): logs and
returns the acknowledgement object. -/
def handle_notif_inited (_params : Option Json) : Except String Json :=
  Except.ok ackResult

/-- The static descriptor of the reference tool `echo` (mcp.py lines
94-108). -/
def echoToolDescriptor : Json :=
  Json.obj
    [("name", Json.str "echo"),
     ("description", Json.str "Echoes back the provided message."),
     ("inputSchema", Json.obj
       [("type", Json.str "object"),
        ("properties", Json.obj
          [("message", Json.obj
            [("type", Json.str "string"),
             ("description", Json.str "Message to echo back")])]),
        ("required", Json.arr [Json.str "message"])])]

/-- `handle_tools_list` (mcp.py lines 89-113): ignores `params` and wraps
the static descriptors as `{tools: [...]}`. -/
def handle_tools_list (_params : Option Json) : Except String Json :=
  Except.ok (Json.obj [("tools", Json.arr [echoToolDescriptor])])

/-- `handle_tools_call` (mcp.py lines 129-147). Mirrors the source line by
line: a falsy or non-dict `params` yields the invalid-parameters result
dict; `tool_name := params.get("name")` and
`arguments := params.get("arguments", {})`; a falsy `tool_name` yields the
name-required result dict; a registry miss yields the unknown-tool result
dict; otherwise the handler runs on `arguments` (and may raise). -/
def handle_tools_call (reg : Registry) (params : Option Json) :
    Except String Json :=
  match params with
  | some (Json.obj kvs) =>
      if kvs.isEmpty then Except.ok (errObj "Invalid parameters for tools/call")
      else
        let tool_name : Option Json := List.lookup "name" kvs
        let arguments : Json := (List.lookup "arguments" kvs).getD (Json.obj [])
        if !optTruthy tool_name then Except.ok (errObj "Tool name is required")
        else
          match lookupTool reg tool_name with
          | none => Except.ok (errObj ("Unknown tool: " ++ pyStrOpt tool_name))
          | some handler => handler arguments
  | _ => Except.ok (errObj "Invalid parameters for tools/call")

/-! ### The `time` handler

`handle_time` observes the wall clock once (`now = datetime.now(timezone.utc)`)
and renders it in several formats. The instant is modelled by the rational
`t` that the double `now.timestamp()` denotes; `int(now.timestamp())` is
exact truncation toward zero of that same double, and the date/time strings
are recomputed from `t` with the standard civil-from-days calendar
algorithm. -/

/-- Python `int()` on the double `now.timestamp()`: exact truncation toward
zero, i.e. the numerator of the exact rational T-divided by its
denominator. -/
def pyIntTrunc (q : ℚ) : ℤ :=
  q.num.tdiv q.den

/-- Proleptic-Gregorian date of a day count relative to 1970-01-01
(civil-from-days; `/` and `%` on `ℤ` are Euclidean, which for the positive
divisors used here is exactly the floor division the algorithm needs). -/
def civilFromDays (z : ℤ) : ℤ × ℕ × ℕ :=
  let z := z + 719468
  let era : ℤ := z / 146097
  let doe : ℕ := (z % 146097).toNat
  let yoe : ℕ := (doe - doe / 1460 + doe / 36524 - doe / 146096) / 365
  let doy : ℕ := doe - (365 * yoe + yoe / 4 - yoe / 100)
  let mp : ℕ := (5 * doy + 2) / 153
  let d : ℕ := doy - (153 * mp + 2) / 5 + 1
  let m : ℕ := if mp < 10 then mp + 3 else mp - 9
  let y : ℤ := (yoe : ℤ) + era * 400 + (if m ≤ 2 then 1 else 0)
  (y, m, d)

/-- Left-pad the decimal rendering of a natural with zeros to `w` digits. -/
def padNat (w : ℕ) (n : ℕ) : String :=
  let s := toString n
  let k := w - s.length
  String.mk (List.replicate k (Char.ofNat 48)) ++ s

/-- Calendar fields `(year, month, day, hour, minute, second, microsecond)`
of the instant `t` seconds after the Unix epoch. The microsecond field is
the truncated fractional part, matching the microsecond resolution of the
observed `datetime`. -/
def utcFields (t : ℚ) : ℤ × ℕ × ℕ × ℕ × ℕ × ℕ × ℕ :=
  let secs : ℤ := ⌊t⌋
  let micro : ℕ := (⌊(t - secs) * 1000000⌋).toNat
  let days : ℤ := secs / 86400
  let sod : ℕ := (secs % 86400).toNat
  let (y, m, d) := civilFromDays days
  (y, m, d, sod / 3600, sod % 3600 / 60, sod % 60, micro)

/-- `now.isoformat()` for the UTC-aware observed datetime:
`YYYY-MM-DDTHH:MM:SS[.ffffff]+00:00`, the microsecond part present only when
nonzero. `datetime` years lie in 1..9999, so four zero-padded digits. -/
def isoUtc (t : ℚ) : String :=
  let (y, m, d, hh, mi, ss, micro) := utcFields t
  padNat 4 y.toNat ++ "-" ++ padNat 2 m ++ "-" ++ padNat 2 d ++ "T" ++
    padNat 2 hh ++ ":" ++ padNat 2 mi ++ ":" ++ padNat 2 ss ++
    (if micro = 0 then "" else "." ++ padNat 6 micro) ++ "+00:00"

/-- `now.strftime("%Y-%m-%d %H:%M:%S UTC")`: the same fields without the
fractional second. -/
def fmtUtc (t : ℚ) : String :=
  let (y, m, d, hh, mi, ss, _) := utcFields t
  padNat 4 y.toNat ++ "-" ++ padNat 2 m ++ "-" ++ padNat 2 d ++ " " ++
    padNat 2 hh ++ ":" ++ padNat 2 mi ++ ":" ++ padNat 2 ss ++ " UTC"

/-- `handle_time` (mcp.py lines 33-49): renders the single observed instant
`t` in the five advertised representations; `params` is ignored. -/
def handle_time (t : ℚ) (_params : Option Json) : Except String Json :=
  Except.ok (Json.obj
    [("method", Json.str "time"),
     ("server_time", Json.obj
       [("iso_format", Json.str (isoUtc t)),
        ("timestamp", Json.num t),
        ("unix_timestamp", Json.num ((pyIntTrunc t : ℤ) : ℚ)),
        ("formatted", Json.str (fmtUtc t)),
        ("timezone", Json.str "UTC")]),
     ("message", Json.str "Time retrieved successfully")])

/-! ### Envelope codec (modelled from the spec)

`app/json_rpc.py` is not among the sources under verification; only the
line of `mcp.py` importing it is. The envelope types and constructors are
therefore modelled from the specification sections 3, 4.1 and 6. -/

/-- Modelled from the spec: the request envelope of the missing
`app/json_rpc.py` (`JsonRpcRequest`): a method string, an optional `params`
value passed through unchanged, and an optional opaque correlation id
(`some Json.null` is an explicit `"id": null`; `none` is an omitted id,
i.e. a notification). -/
structure JsonRpcRequest where
  method : String
  params : Option Json
  id : Option Json

/-- Modelled from the spec: the response envelopes of the missing
`app/json_rpc.py` — a success envelope `{result, id}` or an error envelope
`{error: {code, message, data}, id}` with a symbolic code. -/
inductive JsonRpcResp : Type where
  | success (result : Json) (id : Option Json) : JsonRpcResp
  | error (code : String) (message : String) (data : Option Json)
      (id : Option Json) : JsonRpcResp

/-- Modelled from the spec: `create_success_response(result, id)` of the
missing `app/json_rpc.py` — wraps a result, echoing `id` verbatim. -/
def create_success_response (result : Json) (idv : Option Json) : JsonRpcResp :=
  JsonRpcResp.success result idv

/-- Modelled from the spec: `create_error_response(kind, message, id, data)`
of the missing `app/json_rpc.py` — an error envelope with a symbolic code,
a human-readable message, an optional data payload, and the echoed `id`. -/
def create_error_response (kind message : String) (idv : Option Json)
    (data : Option Json) : JsonRpcResp :=
  JsonRpcResp.error kind message data idv

/-- The correlation id carried by a response envelope. -/
def respId : JsonRpcResp → Option Json
  | .success _ idv => idv
  | .error _ _ _ idv => idv

/-- Whether a response is an error envelope (as opposed to a success
envelope). -/
def isErrorResp : JsonRpcResp → Bool
  | .success _ _ => false
  | .error _ _ _ _ => true

/-! ### The dispatcher -/

/-- The `if method == ...` routing chain of `handle_request` (mcp.py lines
160-169), in source order; `none` is the `else` arm. The wall clock `t` is
the instant the `time` handler would observe. -/
def selectHandler (reg : Registry) (t : ℚ) (m : String) :
    Option (Option Json → Except String Json) :=
  if m = "initialize" then some handle_init
  else if m = "notifications/initialized" then some handle_notif_inited
  else if m = "time" then some (handle_time t)
  else if m = "tools/list" then some handle_tools_list
  else if m = "tools/call" then some (handle_tools_call reg)
  else none

/-- `handle_request` (mcp.py lines 149-188): route on the method string;
an unknown method returns a `METHOD_NOT_FOUND` error envelope naming it; a
handler result is wrapped as a success envelope; an exception raised by the
handler is caught by the `try/except` and becomes an `INTERNAL_ERROR`
envelope carrying `f"Internal error: {str(e)}"`. Every branch echoes
`request.id`. -/
def handle_request (reg : Registry) (t : ℚ) (req : JsonRpcRequest) :
    JsonRpcResp :=
  match selectHandler reg t req.method with
  | some h =>
      match h req.params with
      | Except.ok result => create_success_response result req.id
      | Except.error e =>
          create_error_response "INTERNAL_ERROR" ("Internal error: " ++ e)
            req.id none
  | none =>
      create_error_response "METHOD_NOT_FOUND"
        ("Method not found: " ++ req.method) req.id none

/-- `handle_request` in state-passing form over the module-global
`TOOL_HANDLERS` dictionary: every dictionary operation on any dispatch path
is a read (`TOOL_HANDLERS.get`, mcp.py line 143; the only writes, lines 29
and 127, run at module load), so each branch returns the registry it was
given. -/
def handle_request_st (reg : Registry) (t : ℚ) (req : JsonRpcRequest) :
    JsonRpcResp × Registry :=
  match selectHandler reg t req.method with
  | some h =>
      match h req.params with
      | Except.ok result => (create_success_response result req.id, reg)
      | Except.error e =>
          (create_error_response "INTERNAL_ERROR" ("Internal error: " ++ e)
            req.id none, reg)
  | none =>
      (create_error_response "METHOD_NOT_FOUND"
        ("Method not found: " ++ req.method) req.id none, reg)

/-- The `(timestamp, unix_timestamp)` pair inside a `time` result. -/
def timeFields (r : Except String Json) : Option (Json × Json) :=
  match r with
  | Except.ok j =>
      match j.get? "server_time" with
      | some st =>
          match st.get? "timestamp", st.get? "unix_timestamp" with
          | some ts, some uts => some (ts, uts)
          | _, _ => none
      | none => none
  | Except.error _ => none

/-- The `not params or not isinstance(params, dict)` test of
`handle_tools_call` (mcp.py line 133): `None`, any non-dict value, and the
falsy empty dict all fail it. -/
def badParams : Option Json → Bool
  | none => true
  | some (Json.obj kvs) => kvs.isEmpty
  | some _ => true

/-- On a nonnegative rational, Python truncation toward zero agrees with the
floor. -/
theorem pyIntTrunc_eq_floor {q : ℚ} (h : 0 ≤ q) : pyIntTrunc q = ⌊q⌋ := by
  rw [pyIntTrunc, Rat.floor_def]
  exact Int.tdiv_eq_ediv (Rat.num_nonneg.mpr h) (Int.natCast_nonneg _)

/-- C1 (counterexample): a `tools/call` request with `params` absent does
not receive an `INVALID_PARAMS`-class error envelope: `handle_tools_call`
returns the result dict `{"error": "Invalid parameters for tools/call"}`,
which the dispatcher wraps in a success envelope. -/
theorem tools_call_invalid_params_success_envelope :
    handle_request TOOL_HANDLERS 0 ⟨"tools/call", none, some (Json.num 1)⟩ =
      JsonRpcResp.success (errObj "Invalid parameters for tools/call")
        (some (Json.num 1)) ∧
    isErrorResp (handle_request TOOL_HANDLERS 0
      ⟨"tools/call", none, some (Json.num 1)⟩) = false :=
  ⟨rfl, rfl⟩

/-- C1 (amended): each `tools/call` validation failure — `params`
absent/non-dict/empty, missing or falsy `name`, unregistered tool — yields
a response (a success envelope whose result dict carries the corresponding
`"error"` message) rather than a crash. -/
theorem tools_call_failures_are_result_dicts (t : ℚ) (idv : Option Json) :
    (∀ p : Option Json, badParams p = true →
      handle_request TOOL_HANDLERS t ⟨"tools/call", p, idv⟩ =
        JsonRpcResp.success (errObj "Invalid parameters for tools/call") idv) ∧
    (∀ kvs : List (String × Json), kvs.isEmpty = false →
      optTruthy (List.lookup "name" kvs) = false →
      handle_request TOOL_HANDLERS t ⟨"tools/call", some (Json.obj kvs), idv⟩ =
        JsonRpcResp.success (errObj "Tool name is required") idv) ∧
    (∀ (kvs : List (String × Json)) (s : String), kvs.isEmpty = false →
      List.lookup "name" kvs = some (Json.str s) → s ≠ "" →
      List.lookup s TOOL_HANDLERS = none →
      handle_request TOOL_HANDLERS t ⟨"tools/call", some (Json.obj kvs), idv⟩ =
        JsonRpcResp.success (errObj ("Unknown tool: " ++ s)) idv) := by
  refine ⟨?_, ?_, ?_⟩
  · intro p hp
    cases p with
    | none => rfl
    | some j =>
      cases j with
      | null => rfl
      | bool b => rfl
      | num q => rfl
      | str s => rfl
      | arr xs => rfl
      | obj kvs =>
        cases kvs with
        | nil => rfl
        | cons a l => simp [badParams] at hp
  · intro kvs hne hname
    simp [handle_request, selectHandler, handle_tools_call, hne, hname,
      create_success_response]
  · intro kvs s hne hname hs hmiss
    simp [handle_request, selectHandler, handle_tools_call, hne, hname, hs,
      optTruthy, Json.truthy, lookupTool, hmiss, pyStrOpt, pyStr,
      create_success_response]

/-- C1 (witness for the amended claim): the three failure shapes at
concrete inputs. -/
theorem tools_call_failures_are_result_dicts_witness :
    handle_request TOOL_HANDLERS 0 ⟨"tools/call", none, none⟩ =
      JsonRpcResp.success (errObj "Invalid parameters for tools/call") none ∧
    handle_request TOOL_HANDLERS 0
        ⟨"tools/call", some (Json.obj [("arguments", Json.obj [])]), none⟩ =
      JsonRpcResp.success (errObj "Tool name is required") none ∧
    handle_request TOOL_HANDLERS 0
        ⟨"tools/call", some (Json.obj [("name", Json.str "missing_tool")]),
          none⟩ =
      JsonRpcResp.success (errObj ("Unknown tool: " ++ "missing_tool")) none :=
  ⟨(tools_call_failures_are_result_dicts 0 none).1 none rfl,
   (tools_call_failures_are_result_dicts 0 none).2.1
     [("arguments", Json.obj [])] rfl rfl,
   (tools_call_failures_are_result_dicts 0 none).2.2
     [("name", Json.str "missing_tool")] "missing_tool" rfl rfl
     (by decide) rfl⟩

/-- C2: a request whose method is none of the five routed names receives a
`METHOD_NOT_FOUND` error envelope whose message embeds the unknown method
string and whose id is the request's id. -/
theorem unknown_method_not_found (reg : Registry) (t : ℚ)
    (req : JsonRpcRequest)
    (h1 : req.method ≠ "initialize")
    (h2 : req.method ≠ "notifications/initialized")
    (h3 : req.method ≠ "time")
    (h4 : req.method ≠ "tools/list")
    (h5 : req.method ≠ "tools/call") :
    handle_request reg t req =
      JsonRpcResp.error "METHOD_NOT_FOUND"
        ("Method not found: " ++ req.method) none req.id ∧
    ∃ s : String, "Method not found: " ++ req.method = s ++ req.method := by
  refine ⟨?_, "Method not found: ", rfl⟩
  simp [handle_request, selectHandler, h1, h2, h3, h4, h5,
    create_error_response]

/-- C2 (witness): the unknown method `"foo/bar"`. -/
theorem unknown_method_not_found_witness :
    handle_request TOOL_HANDLERS 0 ⟨"foo/bar", none, some (Json.num 7)⟩ =
      JsonRpcResp.error "METHOD_NOT_FOUND" ("Method not found: " ++ "foo/bar")
        none (some (Json.num 7)) ∧
    ∃ s : String, "Method not found: " ++ "foo/bar" = s ++ "foo/bar" :=
  unknown_method_not_found TOOL_HANDLERS 0 ⟨"foo/bar", none, some (Json.num 7)⟩
    (by decide) (by decide) (by decide) (by decide) (by decide)

/-- C3: when the routed handler raises (an `Except.error`), the dispatcher
catches it and answers with an `INTERNAL_ERROR` envelope whose message
embeds the failure's description and whose id is the request's id; no
exception escapes `handle_request`, which is total by construction. -/
theorem handler_exception_internal_error (reg : Registry) (t : ℚ)
    (req : JsonRpcRequest) (h : Option Json → Except String Json) (e : String)
    (hsel : selectHandler reg t req.method = some h)
    (hrun : h req.params = Except.error e) :
    handle_request reg t req =
      JsonRpcResp.error "INTERNAL_ERROR" ("Internal error: " ++ e)
        none req.id ∧
    ∃ s : String, "Internal error: " ++ e = s ++ e := by
  refine ⟨?_, "Internal error: ", rfl⟩
  simp [handle_request, hsel, hrun, create_error_response]

/-- C3 (witness): `tools/call` on `echo` with a list-valued `arguments`
makes `arguments.get` raise `AttributeError`, which surfaces as an
`INTERNAL_ERROR` envelope with the request's id. -/
theorem handler_exception_internal_error_witness :
    handle_request TOOL_HANDLERS 0
        ⟨"tools/call",
          some (Json.obj [("name", Json.str "echo"),
            ("arguments", Json.arr [])]),
          some (Json.str "w3")⟩ =
      JsonRpcResp.error "INTERNAL_ERROR"
        ("Internal error: " ++
          "\x27list\x27 object has no attribute \x27get\x27")
        none (some (Json.str "w3")) ∧
    ∃ s : String,
      "Internal error: " ++ "\x27list\x27 object has no attribute \x27get\x27" =
        s ++ "\x27list\x27 object has no attribute \x27get\x27" :=
  handler_exception_internal_error TOOL_HANDLERS 0
    ⟨"tools/call",
      some (Json.obj [("name", Json.str "echo"), ("arguments", Json.arr [])]),
      some (Json.str "w3")⟩
    (handle_tools_call TOOL_HANDLERS)
    "\x27list\x27 object has no attribute \x27get\x27" rfl rfl

/-- C4: dispatch is total — every request, notifications (absent id) and
`notifications/initialized` included, receives exactly one envelope, and
its correlation id is the request's id. -/
theorem dispatch_total_preserves_id (reg : Registry) (t : ℚ) :
    (∀ req : JsonRpcRequest, respId (handle_request reg t req) = req.id) ∧
    (∀ p idv : Option Json,
      handle_request reg t ⟨"notifications/initialized", p, idv⟩ =
        JsonRpcResp.success ackResult idv) := by
  constructor
  · intro req
    rcases hsel : selectHandler reg t req.method with _ | h
    · simp only [handle_request, hsel]
      rfl
    · rcases hres : h req.params with r | e <;>
        simp only [handle_request, hsel, hres] <;> rfl
  · intro p idv
    rfl

/-- C5: `tools/call` on `echo` with a string `message` echoes it in a text
content block; with `arguments` absent the mapping defaults to empty and
the echoed text is the empty string, without failure. -/
theorem echo_tool_call_roundtrip (t : ℚ) (idv : Option Json) :
    (∀ m : String,
      handle_request TOOL_HANDLERS t
          ⟨"tools/call",
            some (Json.obj [("name", Json.str "echo"),
              ("arguments", Json.obj [("message", Json.str m)])]), idv⟩ =
        JsonRpcResp.success (Json.obj [("content", Json.arr [Json.obj
          [("type", Json.str "text"), ("text", Json.str m)]])]) idv) ∧
    (handle_request TOOL_HANDLERS t
        ⟨"tools/call", some (Json.obj [("name", Json.str "echo")]), idv⟩ =
      JsonRpcResp.success (Json.obj [("content", Json.arr [Json.obj
        [("type", Json.str "text"), ("text", Json.str "")]])]) idv) :=
  ⟨fun _ => rfl, rfl⟩

/-- C6: every `tools/list` request succeeds with `{tools: [...]}` listing
the `echo` descriptor, whose `inputSchema` declares the string property
`message` and lists it as required. -/
theorem tools_list_includes_echo (reg : Registry) (t : ℚ)
    (p idv : Option Json) :
    handle_request reg t ⟨"tools/list", p, idv⟩ =
      JsonRpcResp.success
        (Json.obj [("tools", Json.arr [echoToolDescriptor])]) idv ∧
    echoToolDescriptor.get? "name" = some (Json.str "echo") ∧
    (echoToolDescriptor.get? "inputSchema" >>= fun s => s.get? "required") =
      some (Json.arr [Json.str "message"]) ∧
    ((echoToolDescriptor.get? "inputSchema" >>= fun s => s.get? "properties")
        >>= fun ps => ps.get? "message" >>= fun msg => msg.get? "type") =
      some (Json.str "string") :=
  ⟨rfl, rfl, rfl, rfl⟩

/-- C7: `initialize` is idempotent and side-effect free — its result is
independent of `params` (any two calls return the identical descriptor),
and in state-passing form the registry, the dispatcher's only mutable
state, is returned unchanged. -/
theorem init_idempotent_stateless :
    (∀ p q : Option Json, handle_init p = handle_init q) ∧
    (∀ (reg : Registry) (t : ℚ) (p idv : Option Json),
      handle_request_st reg t ⟨"initialize", p, idv⟩ =
        (JsonRpcResp.success initResult idv, reg)) :=
  ⟨fun _ _ => rfl, fun _ _ _ _ => rfl⟩

/-- C8 (counterexample): for the instant half a second before the Unix
epoch, `int(now.timestamp())` is `0` while the floor of the returned
floating-point timestamp is `-1`: the claimed equality fails for pre-epoch
instants, as Python `int()` truncates toward zero. -/
theorem time_trunc_ne_floor_pre_epoch :
    timeFields (handle_time (-(1 : ℚ)/2) none) =
      some (Json.num (-(1 : ℚ)/2), Json.num ((0 : ℤ) : ℚ)) ∧
    (⌊(-(1 : ℚ)/2)⌋ : ℤ) = -1 ∧ ((0 : ℤ) : ℚ) ≠ ((-1 : ℤ) : ℚ) := by
  have hnum : (-(1 : ℚ)/2).num = -1 := by norm_num
  have hden : (-(1 : ℚ)/2).den = 2 := by norm_num
  have htr : pyIntTrunc (-(1 : ℚ)/2) = 0 := by
    rw [pyIntTrunc, hnum, hden]; decide
  have hfl : (⌊(-(1 : ℚ)/2)⌋ : ℤ) = -1 := by
    rw [Rat.floor_def, hnum, hden]; decide
  refine ⟨?_, hfl, by norm_num⟩
  simp [handle_time, timeFields, Json.get?, List.lookup, htr]

/-- C8 (amended): for every observed instant at or after the Unix epoch,
the `time` result's integer epoch timestamp equals the floor of its
floating-point epoch timestamp, both derived from the same instant `t`. -/
theorem time_unix_eq_floor_nonneg (t : ℚ) (p : Option Json) (h : 0 ≤ t) :
    timeFields (handle_time t p) =
      some (Json.num t, Json.num ((⌊t⌋ : ℤ) : ℚ)) := by
  simp [handle_time, timeFields, Json.get?, List.lookup, pyIntTrunc_eq_floor h]

/-- C8 (witness for the amended claim): the instant 1.5 seconds after the
epoch, whose floor is 1. -/
theorem time_unix_eq_floor_nonneg_witness :
    (0 : ℚ) ≤ (3 : ℚ)/2 ∧
    timeFields (handle_time ((3 : ℚ)/2) none) =
      some (Json.num ((3 : ℚ)/2), Json.num ((⌊((3 : ℚ)/2)⌋ : ℤ) : ℚ)) ∧
    (⌊((3 : ℚ)/2)⌋ : ℤ) = 1 :=
  ⟨by norm_num, time_unix_eq_floor_nonneg ((3 : ℚ)/2) none (by norm_num),
   by
    have hnum : ((3 : ℚ)/2).num = 3 := by norm_num
    have hden : ((3 : ℚ)/2).den = 2 := by norm_num
    rw [Rat.floor_def, hnum, hden]; decide⟩

/-- C9: the registry populated at module load is preserved unchanged by
every dispatch — in state-passing form `handle_request` returns
`TOOL_HANDLERS` as it received it, with `echo` still registered. -/
theorem registry_read_only_dispatch (t : ℚ) (req : JsonRpcRequest) :
    (handle_request_st TOOL_HANDLERS t req).2 = TOOL_HANDLERS ∧
    List.lookup "echo" (handle_request_st TOOL_HANDLERS t req).2 =
      some tool_echo := by
  have h2 : (handle_request_st TOOL_HANDLERS t req).2 = TOOL_HANDLERS := by
    rcases hsel : selectHandler TOOL_HANDLERS t req.method with _ | h
    · simp [handle_request_st, hsel]
    · rcases hres : h req.params with r | e <;>
        simp [handle_request_st, hsel, hres]
  exact ⟨h2, by rw [h2]; rfl⟩

/-- C10: a `tools/call` whose params dict maps `"name"` to the empty string
is rejected with the name-required failure for every registry — the check
is on the value's truthiness, so key presence alone does not reach the
registry lookup. -/
theorem empty_tool_name_required (reg : Registry) (t : ℚ) (idv : Option Json)
    (kvs : List (String × Json))
    (h : List.lookup "name" kvs = some (Json.str "")) :
    handle_request reg t ⟨"tools/call", some (Json.obj kvs), idv⟩ =
      JsonRpcResp.success (errObj "Tool name is required") idv := by
  have hne : kvs.isEmpty = false := by
    cases kvs with
    | nil => simp [List.lookup] at h
    | cons a l => rfl
  simp [handle_request, selectHandler, handle_tools_call, h, hne, optTruthy,
    Json.truthy, create_success_response]

/-- C10 (witness): `params = {"name": ""}` against the real registry. -/
theorem empty_tool_name_required_witness :
    handle_request TOOL_HANDLERS 0
        ⟨"tools/call", some (Json.obj [("name", Json.str "")]),
          some (Json.num 7)⟩ =
      JsonRpcResp.success (errObj "Tool name is required") (some (Json.num 7)) :=
  empty_tool_name_required TOOL_HANDLERS 0 (some (Json.num 7))
    [("name", Json.str "")] rfl

end McpServer
